import Mathlib

/-!
Shallow embedding of src/examples/node.c (livemix example node).

The embedding models the state of `struct data` / `struct port` and the
node-method implementations that the verified properties talk about:
`emit_node_info`, `emit_port_info`, `impl_port_set_io`,
`impl_port_enum_params`, `impl_port_set_param`, `impl_port_use_buffers`,
`port_reuse_buffer`, `impl_port_reuse_buffer` and `impl_node_process`.

Machine integers are modelled as `Nat` (ids, masks, flags, sizes) and
`Int` (status / error return values).  Floating-point fields of the C
state (`accumulator`, `volume_accum`) and the pod/byte-level payloads are
not represented: no claim depends on them.  The intrusive
`struct spa_list empty` free list is modelled as a `List Nat` of buffer
ids in FIFO order (head = `spa_list_first`, append = `spa_list_append`),
which is exactly the information the C list carries because
`b->id = i` is assigned in `impl_port_use_buffers`.
-/

/-- Errno values used by the source (returned negated, as in C). -/
def EINVAL : Int := 22
def ENOENT : Int := 2
def ENOSPC : Int := 28
def EPIPE : Int := 32

/-- SPA status codes from spa/node/io.h. -/
def SPA_STATUS_OK : Int := 0
def SPA_STATUS_HAVE_DATA : Int := 2

/-- SPA_ID_INVALID from spa/utils/defs.h (0xffffffff). -/
def SPA_ID_INVALID : Nat := 4294967295

/-- spa_param_info flag bits from spa/param/param.h. -/
def SPA_PARAM_INFO_SERIAL : Nat := 1
def SPA_PARAM_INFO_READ : Nat := 2
def SPA_PARAM_INFO_WRITE : Nat := 4
def SPA_PARAM_INFO_READWRITE : Nat := 6

/-- spa_param_type values from spa/param/param.h, as used by the source.
The parameter kind 7 (the io-requirements kind) is written numerically
below. -/
def SPA_PARAM_PropInfo : Nat := 1
def SPA_PARAM_Props : Nat := 2
def SPA_PARAM_EnumFormat : Nat := 3
def SPA_PARAM_Format : Nat := 4
def SPA_PARAM_Buffers : Nat := 5
def SPA_PARAM_Meta : Nat := 6

/-- spa_io_type values from spa/node/io.h. -/
def SPA_IO_Buffers : Nat := 1
def SPA_IO_Notify : Nat := 6

/-- Node change-mask bits from spa/node/node.h:
FLAGS = 1, PROPS = 2, PARAMS = 4; `main` sets change_mask_all to their or. -/
def SPA_NODE_CHANGE_MASK_PARAMS : Nat := 4
def NODE_CHANGE_MASK_ALL : Nat := 7

/-- Port change-mask bits from spa/node/node.h:
FLAGS = 1, RATE = 2, PROPS = 4, PARAMS = 8; `main` sets
port_change_mask_all to FLAGS or PROPS or PARAMS. -/
def SPA_PORT_CHANGE_MASK_PARAMS : Nat := 8
def PORT_CHANGE_MASK_ALL : Nat := 13

/-- Indices into the node parameter table (node.c lines 75-80);
the node table has N_NODE_PARAMS = 4 entries. -/
def NODE_PropInfo : Nat := 0
def NODE_Props : Nat := 1
def NODE_EnumFormat : Nat := 2
def NODE_Format : Nat := 3
def N_NODE_PARAMS : Nat := 4

/-- Indices into the port parameter table (node.c lines 42-47);
the port table has N_PORT_PARAMS = 5 entries. -/
def PORT_EnumFormat : Nat := 0
def PORT_Meta : Nat := 1
def PORT_IO_IDX : Nat := 2
def PORT_Format : Nat := 3
def PORT_Buffers : Nat := 4
def N_PORT_PARAMS : Nat := 5

def MAX_BUFFERS : Nat := 32

/-- spa_data types from spa/buffer/buffer.h (MemFd = 2, DmaBuf = 3). -/
def SPA_DATA_MemFd : Nat := 2
def SPA_DATA_DmaBuf : Nat := 3

/-- One entry of a spa_param_info table: parameter id, capability flags
(bit 0 = SERIAL, bit 1 = READ, bit 2 = WRITE), and the `user` field that
the source uses as the dirty counter.  The C macro SPA_PARAM_INFO(id,flags)
builds an entry with `user = 0`. -/
structure ParamInfo where
  id : Nat
  flags : Nat
  user : Nat
  deriving DecidableEq, Repr, Inhabited

/-- SPA_PARAM_INFO(id, flags): compound literal, user zeroed. -/
def mkParamInfo (id flags : Nat) : ParamInfo := ⟨id, flags, 0⟩

/-- struct spa_audio_info_raw, restricted to the three fields the source
reads or writes (format code, channel count, rate).  `spa_zero` /
"format unset" is the all-zero value; SPA_AUDIO_FORMAT_UNKNOWN = 0. -/
structure AudioInfoRaw where
  format : Nat
  channels : Nat
  rate : Nat
  deriving DecidableEq, Repr, Inhabited

/-- struct spa_io_buffers: the data-exchange mailbox (status, buffer_id). -/
structure IoBuffers where
  status : Int
  buffer_id : Nat
  deriving DecidableEq, Repr, Inhabited

/-- struct port from node.c.  `io = none` models an unbound (NULL)
data-exchange mailbox pointer; since the mailbox memory is host-owned we
store its current contents in the port when bound.  `empty` is the free
list of buffer ids in FIFO order. -/
structure Port where
  format : AudioInfoRaw
  port_info_change_mask : Nat
  port_params : List ParamInfo
  n_buffers : Nat
  io : Option IoBuffers
  io_notify : Bool
  io_notify_size : Nat
  empty : List Nat
  deriving DecidableEq, Repr, Inhabited

/-- struct data from node.c, restricted to the fields the node methods
touch.  `n_ports` is represented by `ports.length` (the source only ever
addresses the first n_ports slots of its fixed array). -/
structure NodeData where
  change_mask_all : Nat
  info_change_mask : Nat
  params : List ParamInfo
  port_change_mask_all : Nat
  ports : List Port
  deriving DecidableEq, Repr, Inhabited

/-- Body of the serial toggle-and-reset loop of `emit_node_info` /
`emit_port_info`: a descriptor with `user > 0` gets its SERIAL flag bit
xored and its dirty counter reset; any other descriptor is untouched. -/
def drainOne (q : ParamInfo) : ParamInfo :=
  if 0 < q.user then { q with flags := q.flags ^^^ SPA_PARAM_INFO_SERIAL, user := 0 }
  else q

/-- Toggle-and-reset pass over a parameter table, as performed by
`emit_node_info` / `emit_port_info` when the PARAMS facet is active. -/
def drainSerial (ps : List ParamInfo) : List ParamInfo :=
  ps.map drainOne

/-- emit_node_info (node.c lines 99-120).  Returns the updated state and
the change mask that was passed to spa_node_emit_info (`none` when the
mask was zero and nothing was emitted). -/
def emit_node_info (d : NodeData) (full : Bool) : NodeData × Option Nat :=
  let old := if full then d.info_change_mask else 0
  let mask := if full then d.change_mask_all else d.info_change_mask
  if mask ≠ 0 then
    let ps :=
      if mask &&& SPA_NODE_CHANGE_MASK_PARAMS ≠ 0 then drainSerial d.params else d.params
    ({ d with params := ps, info_change_mask := old }, some mask)
  else
    ({ d with info_change_mask := old }, none)

/-- Body of the per-port loop of emit_port_info (node.c lines 128-150),
for one port; `allMask` is d->port_change_mask_all. -/
def emit_port_one (allMask : Nat) (p : Port) (full : Bool) : Port × Option Nat :=
  let old := if full then p.port_info_change_mask else 0
  let mask := if full then allMask else p.port_info_change_mask
  if mask ≠ 0 then
    let ps :=
      if mask &&& SPA_PORT_CHANGE_MASK_PARAMS ≠ 0 then drainSerial p.port_params else p.port_params
    ({ p with port_params := ps, port_info_change_mask := old }, some mask)
  else
    ({ p with port_info_change_mask := old }, none)

/-- emit_port_info (node.c lines 122-151): the loop over all ports. -/
def emit_port_info (d : NodeData) (full : Bool) : NodeData :=
  { d with ports := d.ports.map fun p => (emit_port_one d.port_change_mask_all p full).1 }

/-- Modelled from the spec: a dirty-marking (`mark_dirty(table, id)`
increments a per-descriptor dirty counter, spec §4.1).  The source file
contains the drain side (`user > 0` in the emit functions) but no caller
that increments `user`; the mutation itself is therefore modelled from
the spec as the increment of the `user` counter of descriptor `i`. -/
def markDirty : List ParamInfo → Nat → List ParamInfo
  | [], _ => []
  | q :: qs, 0 => { q with user := q.user + 1 } :: qs
  | q :: qs, i + 1 => q :: markDirty qs i

/-- port_reuse_buffer (node.c lines 504-508): unconditionally appends
buffers[id] to the tail of the free list. -/
def port_reuse_buffer (p : Port) (id : Nat) : Port :=
  { p with empty := p.empty ++ [id] }

/-- impl_port_reuse_buffer (node.c lines 510-522). -/
def impl_port_reuse_buffer (d : NodeData) (port_id buffer_id : Nat) : Int × NodeData :=
  if d.ports.length ≤ port_id then (- EINVAL, d)
  else
    let p := d.ports.getD port_id default
    (0, { d with ports := d.ports.set port_id (port_reuse_buffer p buffer_id) })

/-- impl_port_set_io (node.c lines 238-265).  `dat = none` models a NULL
data pointer; for the notify mailbox only boundness and the size are
modelled (its contents are a pod area the claims do not inspect). -/
def impl_port_set_io (d : NodeData) (port_id ioid : Nat) (dat : Option IoBuffers)
    (sz : Nat) : Int × NodeData :=
  if d.ports.length ≤ port_id then (- EINVAL, d)
  else
    let p := d.ports.getD port_id default
    if ioid = SPA_IO_Buffers then
      (0, { d with ports := d.ports.set port_id { p with io := dat } })
    else if ioid = SPA_IO_Notify then
      (0, { d with ports :=
              d.ports.set port_id { p with io_notify := dat.isSome, io_notify_size := sz } })
    else (- ENOENT, d)

/-- One candidate pod emitted by impl_port_enum_params; payloads the
claims do not inspect are abstracted to bare constructors (enumFormat
carries the fixed capability choice object of lines 311-322, buffers the
fixed ParamBuffers object of lines 346-352, meta the header descriptor,
ioBuffers / ioNotify the two ParamIO descriptors). -/
inductive Cand where
  | enumFormat
  | fmt (f : AudioInfoRaw)
  | buffers
  | meta
  | ioBuffers
  | ioNotify
  deriving DecidableEq, Repr

/-- The candidate ordering of one parameter kind for a given port state,
read off the switch of impl_port_enum_params (node.c lines 307-394):
position k of the list is the pod built at result.index = k, an index
past the end hits the per-kind `default: return 0`, and an unknown kind
is `none` (the outer `default: return -ENOENT`).  The committed-format
kind yields nothing when the format is unset (line 332). -/
def portParamCandidates (p : Port) (id : Nat) : Option (List Cand) :=
  if id = SPA_PARAM_EnumFormat then some [.enumFormat]
  else if id = SPA_PARAM_Format then
    some (if p.format.format = 0 then [] else [.fmt p.format])
  else if id = SPA_PARAM_Buffers then some [.buffers]
  else if id = SPA_PARAM_Meta then some [.meta]
  else if id = 7 then some [.ioBuffers, .ioNotify]
  else none

/-- impl_port_enum_params (node.c lines 267-406).  The while loop walks
result.index from `start`, passes each built pod through the optional
filter (a rejected candidate is skipped and the index advances, line
396-399), emits until `num` results were emitted (checked before the
switch, so `num = 0` returns 0 even for an unknown kind) or the kind's
ordering is exhausted.  That loop is exactly drop/filter/take on the
kind's candidate list.  Returns the status and the emitted results. -/
def impl_port_enum_params (d : NodeData) (port_id id start num : Nat)
    (filter : Option (Cand → Bool)) : Int × List Cand :=
  if d.ports.length ≤ port_id then (- EINVAL, [])
  else if num = 0 then (0, [])
  else
    let p := d.ports.getD port_id default
    match portParamCandidates p id with
    | none => (- ENOENT, [])
    | some cs =>
        (0, (((cs.drop start).filter fun c =>
                match filter with
                | none => true
                | some f => f c)).take num)

/-- impl_port_set_param (node.c lines 408-450).  Only SPA_PARAM_Format is
settable.  Note the source mutates `d->params[PORT_Format]` and
`d->params[PORT_Buffers]` — the NODE parameter table — with the PORT
table indices 3 and 4; index 4 is out of bounds of the 4-entry node
table (`List.set` past the end is a no-op, matching "the 4-entry table
itself is unchanged"; in C this write is undefined behaviour).  The
payload is modelled as the parsed spa_audio_info_raw value
(spa_format_audio_raw_parse's result; its error return is ignored by the
source). -/
def impl_port_set_param (d : NodeData) (port_id id : Nat)
    (param : Option AudioInfoRaw) : Int × NodeData :=
  if d.ports.length ≤ port_id then (- EINVAL, d)
  else if id = SPA_PARAM_Format then
    let p := d.ports.getD port_id default
    let p :=
      match param with
      | some f => { p with format := f }
      | none => { p with format := ⟨0, 0, 0⟩ }
    let nparams :=
      match param with
      | some _ =>
          (d.params.set PORT_Format
              (mkParamInfo SPA_PARAM_Format SPA_PARAM_INFO_READWRITE)).set PORT_Buffers
            (mkParamInfo SPA_PARAM_Buffers SPA_PARAM_INFO_READ)
      | none =>
          (d.params.set PORT_Format
              (mkParamInfo SPA_PARAM_Format SPA_PARAM_INFO_WRITE)).set PORT_Buffers
            (mkParamInfo SPA_PARAM_Buffers 0)
    let p := { p with port_info_change_mask := SPA_PORT_CHANGE_MASK_PARAMS }
    let d := { d with ports := d.ports.set port_id p, params := nparams }
    let d := (emit_node_info d false).1
    let d := emit_port_info d false
    (0, d)
  else (- ENOENT, d)

/-- One buffer descriptor handed to port_use_buffers: whether
datas[0].data is non-NULL, datas[0].type, and datas[0].maxsize. -/
structure BufferDesc where
  hasData : Bool
  dtype : Nat
  maxsize : Nat
  deriving DecidableEq, Repr, Inhabited

/-- The for loop of impl_port_use_buffers (node.c lines 471-498): buffer
`i` is bound (directly, or by an mmap that this model takes to succeed)
and appended to the free list; a descriptor that neither carries data
nor is MemFd/DmaBuf makes the whole call return -EINVAL, leaving the
appends already performed in place (the C early-returns mid-loop). -/
def useBuffersLoop : Port → List BufferDesc → Nat → Option Int × Port
  | p, [], _ => (none, p)
  | p, b :: rest, i =>
    if b.hasData then
      useBuffersLoop { p with empty := p.empty ++ [i] } rest (i + 1)
    else if b.dtype = SPA_DATA_MemFd ∨ b.dtype = SPA_DATA_DmaBuf then
      useBuffersLoop { p with empty := p.empty ++ [i] } rest (i + 1)
    else (some (- EINVAL), p)

/-- impl_port_use_buffers (node.c lines 452-502).  Note the free list is
NOT cleared before the loop appends the new set. -/
def impl_port_use_buffers (d : NodeData) (port_id : Nat)
    (bufs : List BufferDesc) : Int × NodeData :=
  if d.ports.length ≤ port_id then (- EINVAL, d)
  else if MAX_BUFFERS < bufs.length then (- ENOSPC, d)
  else
    let p := d.ports.getD port_id default
    match useBuffersLoop p bufs 0 with
    | (some e, p1) => (e, { d with ports := d.ports.set port_id p1 })
    | (none, p1) =>
        (0, { d with ports := d.ports.set port_id { p1 with n_buffers := bufs.length } })

/-- The per-port body plus loop of impl_node_process (node.c lines
597-645).  A port with an unbound (NULL) io pointer makes the C
dereference NULL; that is modelled as `none`.  The branch below the
source's `if (true)` block (lines 634-641: chunk stamping, publishing
the id and SPA_STATUS_HAVE_DATA into the mailbox) is dead code in the
source and is kept here as the unreachable else-branch. -/
def processPorts : List Port → Option (Int × List Port)
  | [] => some (SPA_STATUS_HAVE_DATA, [])
  | p :: rest =>
    match p.io with
    | none => none
    | some m =>
      let p1 :=
        if m.buffer_id < p.n_buffers then
          { port_reuse_buffer p m.buffer_id with
              io := some { m with buffer_id := SPA_ID_INVALID } }
        else p
      match p1.empty with
      | [] => some (- EPIPE, p1 :: rest)
      | b :: tl =>
        let p2 := { p1 with empty := tl }
        if true then
          some (SPA_STATUS_OK, port_reuse_buffer p2 b :: rest)
        else
          match processPorts rest with
          | none => none
          | some (st, rest1) =>
              some (st,
                { p2 with io := some { m with buffer_id := b, status := SPA_STATUS_HAVE_DATA } }
                  :: rest1)

/-- impl_node_process (node.c lines 597-645). -/
def impl_node_process (d : NodeData) : Option (Int × NodeData) :=
  match processPorts d.ports with
  | none => none
  | some (st, ps) => some (st, { d with ports := ps })

/-!
Concrete fixtures: the initial tables and port/node states built by
`main` (node.c lines 792-866), and small reachable states used by the
concrete evaluations below.
-/

/-- Node parameter table as initialized by main (lines 825-828). -/
def initNodeParams : List ParamInfo :=
  [mkParamInfo SPA_PARAM_PropInfo 0,
   mkParamInfo SPA_PARAM_Props SPA_PARAM_INFO_WRITE,
   mkParamInfo SPA_PARAM_EnumFormat SPA_PARAM_INFO_READ,
   mkParamInfo SPA_PARAM_Format SPA_PARAM_INFO_WRITE]

/-- Port parameter table as initialized by main (lines 849-853). -/
def initPortParams : List ParamInfo :=
  [mkParamInfo SPA_PARAM_EnumFormat SPA_PARAM_INFO_READ,
   mkParamInfo SPA_PARAM_Meta SPA_PARAM_INFO_READ,
   mkParamInfo 7 SPA_PARAM_INFO_READ,
   mkParamInfo SPA_PARAM_Format SPA_PARAM_INFO_WRITE,
   mkParamInfo SPA_PARAM_Buffers 0]

/-- A freshly initialized port (main lines 838-863): format zeroed,
mailboxes unbound, empty free list. -/
def initPort : Port :=
  { format := ⟨0, 0, 0⟩
    port_info_change_mask := PORT_CHANGE_MASK_ALL
    port_params := initPortParams
    n_buffers := 0
    io := none
    io_notify := false
    io_notify_size := 0
    empty := [] }

/-- A node state as initialized by main, with the given ports. -/
def initNode (ports : List Port) : NodeData :=
  { change_mask_all := NODE_CHANGE_MASK_ALL
    info_change_mask := NODE_CHANGE_MASK_ALL
    params := initNodeParams
    port_change_mask_all := PORT_CHANGE_MASK_ALL
    ports := ports }

/-- A committed (non-unset) audio format: a nonzero sample-format code,
two channels, rate 44100.  The model only distinguishes unset (= 0)
format codes, so the concrete nonzero code is immaterial. -/
def fmtF32 : AudioInfoRaw := ⟨283, 2, 44100⟩

/-- Scenario state for the produce-cycle claims: one port with a
committed format, a pool of two buffers (ids 0 and 1) both free, and a
bound data-exchange mailbox holding no previously delivered buffer. -/
def c1Port : Port :=
  { initPort with
      format := fmtF32
      n_buffers := 2
      io := some ⟨SPA_STATUS_OK, SPA_ID_INVALID⟩
      empty := [0, 1] }

def c1Node : NodeData := initNode [c1Port]

/-- One produce cycle, projecting out the successor state. -/
def procNext (d : NodeData) : NodeData := ((impl_node_process d).getD (0, d)).2

/-- A port with one buffer (id 0) that is already free. -/
def c3Port : Port := { initPort with n_buffers := 1, empty := [0] }

def c3Node : NodeData := initNode [c3Port]

/-- A buffer descriptor whose datas[0].data is non-NULL (bound directly,
without mapping). -/
def directBuf : BufferDesc := ⟨true, 1, 4096⟩

/-- State after one use_buffers call with a single direct descriptor on
a fresh port. -/
def c4Node1 : NodeData := (impl_port_use_buffers (initNode [initPort]) 0 [directBuf]).2

/-- State after a second identical use_buffers call. -/
def c4Node2 : NodeData := (impl_port_use_buffers c4Node1 0 [directBuf]).2

/-- A port whose pool has zero buffers, none in flight, mailbox bound. -/
def c5Port : Port := { initPort with io := some ⟨0, SPA_ID_INVALID⟩ }

def c5Node : NodeData := initNode [c5Port]

/-!
Claim theorems.
-/

/-- C1: claimed behaviour — with a committed format and pool {0,1} free,
three process() cycles deliver 0, then 1, then 0 again, each marked
in-flight with its id and a data-available status published into the
mailbox.  What the code actually does (evaluated here at that exact
start state): the unconditional `if (true)` stub in impl_node_process
(node.c line 629) recycles the popped buffer immediately and returns
SPA_STATUS_OK, so every cycle leaves both buffers free (the list merely
rotates [0,1] → [1,0] → [0,1] → [1,0]), no buffer is ever in flight,
and the mailbox keeps buffer_id = SPA_ID_INVALID and status unchanged —
no delivery and no SPA_STATUS_HAVE_DATA ever occurs. -/
theorem process_if_true_stub_never_delivers :
    (impl_node_process c1Node).map Prod.fst = some SPA_STATUS_OK ∧
    (impl_node_process (procNext c1Node)).map Prod.fst = some SPA_STATUS_OK ∧
    (impl_node_process (procNext (procNext c1Node))).map Prod.fst = some SPA_STATUS_OK ∧
    (procNext c1Node).ports = [{ c1Port with empty := [1, 0] }] ∧
    (procNext (procNext c1Node)).ports = [{ c1Port with empty := [0, 1] }] ∧
    (procNext (procNext (procNext c1Node))).ports = [{ c1Port with empty := [1, 0] }] := by
  decide

/-- C3: recycling a buffer id that is already on the free list inserts
it a second time: with free list [0], impl_port_reuse_buffer appends id
0 again unconditionally, yielding [0, 0] (id 0 now occurs twice), so the
at-most-one-membership invariant is not preserved. -/
theorem reuse_buffer_duplicates_free_id :
    impl_port_reuse_buffer c3Node 0 0
      = (0, { c3Node with ports := [{ c3Port with empty := [0, 0] }] }) ∧
    ((impl_port_reuse_buffer c3Node 0 0).2.ports.getD 0 default).empty.count 0 = 2 := by
  decide

/-- C4: a second use_buffers call does not replace the pool — the free
list is never cleared, so after installing one buffer twice in a row the
free list holds [0, 0]: its size is 2, not the descriptor count 1, and
the stale entry of the previous set is still present. -/
theorem use_buffers_does_not_clear_free_list :
    c4Node1.ports = [{ initPort with n_buffers := 1, empty := [0] }] ∧
    c4Node2.ports = [{ initPort with n_buffers := 1, empty := [0, 0] }] ∧
    ((c4Node2.ports.getD 0 default).empty.length = 2 ∧
      ¬ (c4Node2.ports.getD 0 default).empty.length = 1) := by
  decide

/-- C5: process() on a node whose (first) port has a bound mailbox with
no previously delivered buffer and an empty free list returns the
starvation error -EPIPE with the state unchanged, and that error is
distinct from the SPA_STATUS_OK result that the no-data path returns. -/
theorem process_starvation (d : NodeData) (p : Port) (rest : List Port) (m : IoBuffers)
    (hports : d.ports = p :: rest) (hio : p.io = some m)
    (hprev : p.n_buffers ≤ m.buffer_id) (hempty : p.empty = []) :
    impl_node_process d = some (- EPIPE, d) ∧ (- EPIPE : Int) ≠ SPA_STATUS_OK := by
  refine ⟨?_, by decide⟩
  have hlt : ¬ m.buffer_id < p.n_buffers := Nat.not_lt.mpr hprev
  simp only [impl_node_process, hports, processPorts, hio, if_neg hlt, hempty]
  rw [← hports]

/-- Witness for process_starvation at the concrete zero-buffer state. -/
theorem process_starvation_witness :
    (c5Node.ports = c5Port :: [] ∧ c5Port.io = some ⟨0, SPA_ID_INVALID⟩ ∧
      c5Port.n_buffers ≤ (4294967295 : Nat) ∧ c5Port.empty = []) ∧
    (impl_node_process c5Node = some (- EPIPE, c5Node) ∧ (- EPIPE : Int) ≠ SPA_STATUS_OK) :=
  ⟨⟨by decide, by decide, by decide, by decide⟩,
    process_starvation c5Node c5Port [] ⟨0, SPA_ID_INVALID⟩ (by decide) (by decide)
      (by decide) (by decide)⟩

/-- Result of committing a format on port 0 of a freshly initialized
single-port node. -/
def c2Res : Int × NodeData :=
  impl_port_set_param (initNode [initPort]) 0 SPA_PARAM_Format (some fmtF32)

/-- Result of then committing an absent payload (clearing the format). -/
def c2ResClear : Int × NodeData := impl_port_set_param c2Res.2 0 SPA_PARAM_Format none

/-- C2: what the commit path actually mutates, evaluated on a fresh
single-port node.  Committing a format does parse the payload into the
port's structured format (and clearing resets it to unset), but the
port's parameter table is left completely unchanged in both directions —
the source instead overwrites entry 3 of the NODE parameter table
(d->params[PORT_Format]) and performs the PORT_Buffers write at index 4,
out of bounds of the 4-entry node table. -/
theorem set_param_mutates_node_table_not_port_table :
    c2Res.1 = 0 ∧
    (c2Res.2.ports.getD 0 default).format = fmtF32 ∧
    (c2Res.2.ports.getD 0 default).port_params = initPortParams ∧
    c2Res.2.params
      = initNodeParams.set 3 (mkParamInfo SPA_PARAM_Format SPA_PARAM_INFO_READWRITE) ∧
    c2ResClear.1 = 0 ∧
    (c2ResClear.2.ports.getD 0 default).format = ⟨0, 0, 0⟩ ∧
    (c2ResClear.2.ports.getD 0 default).port_params = initPortParams ∧
    c2ResClear.2.params
      = initNodeParams.set 3 (mkParamInfo SPA_PARAM_Format SPA_PARAM_INFO_WRITE) := by
  decide

/-- State after commit(format = fmtF32) on a fresh single-port node. -/
def c6Node1 : NodeData :=
  (impl_port_set_param (initNode [initPort]) 0 SPA_PARAM_Format (some fmtF32)).2

/-- State after the subsequent commit(format = absent). -/
def c6Node2 : NodeData := (impl_port_set_param c6Node1 0 SPA_PARAM_Format none).2

/-- C6 counterexample: after commit(format = X) followed by
commit(format = absent), enumerating the buffer-requirements kind does
NOT return zero candidates — it returns exactly one, because
impl_port_enum_params builds the ParamBuffers pod unconditionally. -/
theorem buffers_enum_nonempty_after_clear :
    impl_port_enum_params c6Node2 0 SPA_PARAM_Buffers 0 32 none = (0, [Cand.buffers]) ∧
    ¬ (impl_port_enum_params c6Node2 0 SPA_PARAM_Buffers 0 32 none).2 = [] := by
  decide

/-- The buffer-requirements enumeration is independent of the port's
format state: for every node state and valid port it yields exactly the
one fixed ParamBuffers candidate. -/
theorem enum_buffers_always (d : NodeData) (port_id num : Nat)
    (h : port_id < d.ports.length) (hnum : num ≠ 0) :
    impl_port_enum_params d port_id SPA_PARAM_Buffers 0 num none = (0, [Cand.buffers]) := by
  obtain ⟨k, rfl⟩ := Nat.exists_eq_succ_of_ne_zero hnum
  simp [impl_port_enum_params, portParamCandidates, Nat.not_le.mpr h,
    SPA_PARAM_Buffers, SPA_PARAM_EnumFormat, SPA_PARAM_Format]

/-- impl_port_set_param never changes the number of ports. -/
theorem setParam_ports_length (d : NodeData) (port_id id : Nat)
    (param : Option AudioInfoRaw) :
    ((impl_port_set_param d port_id id param).2).ports.length = d.ports.length := by
  unfold impl_port_set_param
  split
  · rfl
  · split
    · simp [emit_port_info, emit_node_info]
      split <;> simp
    · rfl

/-- C6 amended: after commit(format = X) followed by commit(format =
absent) on a valid port, enumerating the buffer-requirements kind
returns exactly one candidate — the same single candidate the
enumeration returns before any format was committed (the enumeration is
independent of the negotiated state). -/
theorem buffers_enum_same_after_clear (d : NodeData) (port_id num : Nat)
    (f : AudioInfoRaw) (h : port_id < d.ports.length) (hnum : num ≠ 0) :
    impl_port_enum_params
        ((impl_port_set_param
            ((impl_port_set_param d port_id SPA_PARAM_Format (some f)).2)
            port_id SPA_PARAM_Format none).2)
        port_id SPA_PARAM_Buffers 0 num none
      = (0, [Cand.buffers]) ∧
    impl_port_enum_params d port_id SPA_PARAM_Buffers 0 num none = (0, [Cand.buffers]) := by
  refine ⟨enum_buffers_always _ _ _ ?_ hnum, enum_buffers_always _ _ _ h hnum⟩
  rw [setParam_ports_length, setParam_ports_length]
  exact h

/-- Witness for buffers_enum_same_after_clear on the fresh single-port
node. -/
theorem buffers_enum_same_after_clear_witness :
    ((0 : Nat) < (initNode [initPort]).ports.length ∧ (1 : Nat) ≠ 0) ∧
    (impl_port_enum_params
        ((impl_port_set_param
            ((impl_port_set_param (initNode [initPort]) 0 SPA_PARAM_Format (some fmtF32)).2)
            0 SPA_PARAM_Format none).2)
        0 SPA_PARAM_Buffers 0 1 none
      = (0, [Cand.buffers]) ∧
    impl_port_enum_params (initNode [initPort]) 0 SPA_PARAM_Buffers 0 1 none
      = (0, [Cand.buffers])) :=
  ⟨⟨by decide, by decide⟩,
    buffers_enum_same_after_clear (initNode [initPort]) 0 1 fmtF32 (by decide) (by decide)⟩

/-- C7: enumerating the capability-format-enum kind with start = 0 and
count = 1 returns exactly the one capability candidate, for every node
state and every valid port — independent of the negotiated state. -/
theorem enum_format_always_one (d : NodeData) (port_id : Nat)
    (h : port_id < d.ports.length) :
    impl_port_enum_params d port_id SPA_PARAM_EnumFormat 0 1 none
      = (0, [Cand.enumFormat]) := by
  simp [impl_port_enum_params, portParamCandidates, Nat.not_le.mpr h, SPA_PARAM_EnumFormat]

/-- Witness for enum_format_always_one: a port with no format committed
and, separately, one with a committed format. -/
theorem enum_format_always_one_witness :
    ((0 : Nat) < (initNode [initPort]).ports.length ∧
      impl_port_enum_params (initNode [initPort]) 0 SPA_PARAM_EnumFormat 0 1 none
        = (0, [Cand.enumFormat])) ∧
    ((0 : Nat) < c1Node.ports.length ∧
      impl_port_enum_params c1Node 0 SPA_PARAM_EnumFormat 0 1 none
        = (0, [Cand.enumFormat])) :=
  ⟨⟨by decide, enum_format_always_one (initNode [initPort]) 0 (by decide)⟩,
    ⟨by decide, enum_format_always_one c1Node 0 (by decide)⟩⟩

/-- C10: every port-scoped operation called with a port index at or
beyond the node's port count fails with -EINVAL and leaves the node
state unchanged (and the enumeration emits no result). -/
theorem port_ops_invalid_index (d : NodeData)
    (port_id ioid sz kindE start num kindS : Nat)
    (dat : Option IoBuffers) (f : Option (Cand → Bool))
    (payload : Option AudioInfoRaw) (bufs : List BufferDesc)
    (h : d.ports.length ≤ port_id) :
    impl_port_set_io d port_id ioid dat sz = (- EINVAL, d) ∧
    impl_port_enum_params d port_id kindE start num f = (- EINVAL, []) ∧
    impl_port_set_param d port_id kindS payload = (- EINVAL, d) ∧
    impl_port_use_buffers d port_id bufs = (- EINVAL, d) := by
  refine ⟨?_, ?_, ?_, ?_⟩
  · unfold impl_port_set_io; rw [if_pos h]
  · unfold impl_port_enum_params; rw [if_pos h]
  · unfold impl_port_set_param; rw [if_pos h]
  · unfold impl_port_use_buffers; rw [if_pos h]

/-- A node with zero ports (port count 0). -/
def c10Node : NodeData := initNode []

/-- Witness for port_ops_invalid_index at port index 0 of a zero-port
node. -/
theorem port_ops_invalid_index_witness :
    c10Node.ports.length ≤ 0 ∧
    (impl_port_set_io c10Node 0 1 none 0 = (- EINVAL, c10Node) ∧
      impl_port_enum_params c10Node 0 3 0 1 none = (- EINVAL, []) ∧
      impl_port_set_param c10Node 0 4 none = (- EINVAL, c10Node) ∧
      impl_port_use_buffers c10Node 0 [] = (- EINVAL, c10Node)) :=
  ⟨by decide,
    port_ops_invalid_index c10Node 0 1 0 3 0 1 4 none none none [] (by decide)⟩

/-- The SERIAL bit (bit 0) of a parameter descriptor's flags. -/
def serialBit (q : ParamInfo) : Bool := q.flags.testBit 0

/-- Draining always leaves a zero dirty counter. -/
theorem drainOne_user (q : ParamInfo) : (drainOne q).user = 0 := by
  unfold drainOne
  split
  · rfl
  · omega

/-- A descriptor whose counter is already zero is untouched by a drain. -/
theorem drainOne_of_user_zero (q : ParamInfo) (h : q.user = 0) : drainOne q = q := by
  unfold drainOne
  rw [if_neg]
  omega

/-- Every descriptor of a drained table has a zero dirty counter. -/
theorem users_zero_after_drain (ps : List ParamInfo) :
    ∀ q ∈ drainSerial ps, q.user = 0 := by
  intro q hq
  obtain ⟨r, _, rfl⟩ := List.mem_map.mp hq
  exact drainOne_user r

/-- Draining a table whose counters are all zero changes nothing. -/
theorem drain_of_users_zero (ps : List ParamInfo) (h : ∀ q ∈ ps, q.user = 0) :
    drainSerial ps = ps := by
  induction ps with
  | nil => rfl
  | cons q qs ih =>
    unfold drainSerial
    simp only [List.map_cons]
    rw [drainOne_of_user_zero q (h q (by simp))]
    have := ih fun r hr => h r (by simp [hr])
    unfold drainSerial at this
    rw [this]

/-- Draining is idempotent. -/
theorem drain_drain (ps : List ParamInfo) :
    drainSerial (drainSerial ps) = drainSerial ps :=
  drain_of_users_zero _ (users_zero_after_drain ps)

/-- markDirty only touches the addressed entry. -/
theorem getElem?_markDirty_self (ps : List ParamInfo) (i : Nat) :
    (markDirty ps i)[i]? = (ps[i]?).map fun q => { q with user := q.user + 1 } := by
  induction ps generalizing i with
  | nil => simp [markDirty]
  | cons q qs ih =>
    cases i with
    | zero => simp [markDirty]
    | succ k => simpa [markDirty] using ih k

/-- Drained table entries are the drained entries. -/
theorem getElem?_drainSerial (ps : List ParamInfo) (i : Nat) :
    (drainSerial ps)[i]? = (ps[i]?).map drainOne := by
  unfold drainSerial
  exact List.getElem?_map ..

/-- markDirty preserves the table length. -/
theorem length_markDirty (ps : List ParamInfo) (i : Nat) :
    (markDirty ps i).length = ps.length := by
  induction ps generalizing i with
  | nil => rfl
  | cons q qs ih =>
    cases i with
    | zero => rfl
    | succ k => simpa [markDirty] using ih k

/-- drainSerial preserves the table length. -/
theorem length_drainSerial (ps : List ParamInfo) :
    (drainSerial ps).length = ps.length := List.length_map ..

/-- Drain of a freshly bumped descriptor: the SERIAL bit toggles and the
counter resets. -/
theorem drainOne_bump (q : ParamInfo) :
    drainOne { q with user := q.user + 1 }
      = { q with flags := q.flags ^^^ SPA_PARAM_INFO_SERIAL, user := 0 } := by
  have h : 0 < q.user + 1 := Nat.succ_pos _
  unfold drainOne
  rw [if_pos h]

/-- A full emit_node_info with the PARAMS facet in change_mask_all
drains the node table and keeps change_mask_all. -/
theorem emit_node_full_params (d : NodeData)
    (hall : d.change_mask_all &&& SPA_NODE_CHANGE_MASK_PARAMS ≠ 0) :
    (emit_node_info d true).1.params = drainSerial d.params ∧
    (emit_node_info d true).1.change_mask_all = d.change_mask_all := by
  have hne : d.change_mask_all ≠ 0 := by
    intro h0
    rw [h0] at hall
    exact hall rfl
  simp [emit_node_info, hne, hall]

/-- A full emit_port_one with the PARAMS facet in the all-mask drains
the port table. -/
theorem emit_port_full_params (allMask : Nat) (p : Port)
    (hall : allMask &&& SPA_PORT_CHANGE_MASK_PARAMS ≠ 0) :
    (emit_port_one allMask p true).1.port_params = drainSerial p.port_params := by
  have hne : allMask ≠ 0 := by
    intro h0
    rw [h0] at hall
    exact hall rfl
  simp [emit_port_one, hne, hall]

/-- State after one full node-info emission. -/
def nodeAfterFull (d : NodeData) : NodeData := (emit_node_info d true).1

/-- State after a full emission, one dirty-marking of node descriptor
`i`, and a second full emission. -/
def nodeMarkThenFull (d : NodeData) (i : Nat) : NodeData :=
  (emit_node_info
    { nodeAfterFull d with params := markDirty (nodeAfterFull d).params i } true).1

/-- Port state after one full port-info emission. -/
def portAfterFull (allMask : Nat) (p : Port) : Port := (emit_port_one allMask p true).1

/-- Port state after a full emission, one dirty-marking of port
descriptor `j`, and a second full emission. -/
def portMarkThenFull (allMask : Nat) (p : Port) (j : Nat) : Port :=
  (emit_port_one allMask
    { portAfterFull allMask p with
        port_params := markDirty (portAfterFull allMask p).port_params j } true).1

/-- Toggling the SERIAL bit flips serialBit. -/
theorem serialBit_xor_one (q : ParamInfo) :
    serialBit { q with flags := q.flags ^^^ SPA_PARAM_INFO_SERIAL, user := 0 }
      = ! serialBit q := by
  show (q.flags ^^^ SPA_PARAM_INFO_SERIAL).testBit 0 = ! q.flags.testBit 0
  rw [Nat.testBit_xor]
  rw [show SPA_PARAM_INFO_SERIAL.testBit 0 = true by decide]
  cases q.flags.testBit 0 <;> rfl

/-- getD through a known getElem?. -/
theorem getD_eq_of_getElem? {ps : List ParamInfo} {i : Nat} {q : ParamInfo}
    (h : ps[i]? = some q) : ps.getD i default = q := by
  rw [List.getD_eq_getElem?_getD, h]
  rfl

/-- The entry at a valid index, drained then bumped then drained: the
SERIAL bit is toggled exactly once and the counter is reset. -/
theorem drain_mark_drain_getD (ps : List ParamInfo) (i : Nat) (hi : i < ps.length) :
    (drainSerial (markDirty (drainSerial ps) i)).getD i default
      = { (drainSerial ps).getD i default with
            flags := ((drainSerial ps).getD i default).flags ^^^ SPA_PARAM_INFO_SERIAL,
            user := 0 } := by
  have hi1 : i < (drainSerial ps).length := by
    rw [length_drainSerial]
    exact hi
  have h1 : (drainSerial ps)[i]? = some ((drainSerial ps).getD i default) := by
    rw [List.getElem?_eq_getElem hi1, List.getD_eq_getElem?_getD,
      List.getElem?_eq_getElem hi1]
    rfl
  apply getD_eq_of_getElem?
  rw [getElem?_drainSerial, getElem?_markDirty_self, h1]
  simp [drainOne_bump]

/-- C8: the serial protocol of the emit functions is edge-triggered.
For any node table index `i` (with the PARAMS facet present in
change_mask_all, as main configures) and any port table index `j` (with
the PARAMS facet present in the port all-mask): across two consecutive
full emissions with exactly one dirty-marking between them, the marked
descriptor's SERIAL bit is toggled exactly once and its dirty counter is
reset; a second full emission with no interleaved marking leaves the
whole table — and so every serial bit — unchanged. -/
theorem serial_toggle_edge_triggered (d : NodeData) (i allMask : Nat) (p : Port) (j : Nat)
    (hall : d.change_mask_all &&& SPA_NODE_CHANGE_MASK_PARAMS ≠ 0)
    (hi : i < d.params.length)
    (hpall : allMask &&& SPA_PORT_CHANGE_MASK_PARAMS ≠ 0)
    (hj : j < p.port_params.length) :
    serialBit ((nodeMarkThenFull d i).params.getD i default)
        = ! serialBit ((nodeAfterFull d).params.getD i default) ∧
    ((nodeMarkThenFull d i).params.getD i default).user = 0 ∧
    (nodeAfterFull (nodeAfterFull d)).params = (nodeAfterFull d).params ∧
    serialBit ((portMarkThenFull allMask p j).port_params.getD j default)
        = ! serialBit ((portAfterFull allMask p).port_params.getD j default) ∧
    ((portMarkThenFull allMask p j).port_params.getD j default).user = 0 ∧
    (portAfterFull allMask (portAfterFull allMask p)).port_params
        = (portAfterFull allMask p).port_params := by
  have e1 : (nodeAfterFull d).params = drainSerial d.params :=
    (emit_node_full_params d hall).1
  have e1m : (nodeAfterFull d).change_mask_all = d.change_mask_all :=
    (emit_node_full_params d hall).2
  have hallm :
      ({ nodeAfterFull d with params := markDirty (nodeAfterFull d).params i
        } : NodeData).change_mask_all &&& SPA_NODE_CHANGE_MASK_PARAMS ≠ 0 := by
    show (nodeAfterFull d).change_mask_all &&& SPA_NODE_CHANGE_MASK_PARAMS ≠ 0
    rw [e1m]
    exact hall
  have e2 : (nodeMarkThenFull d i).params
      = drainSerial (markDirty (drainSerial d.params) i) := by
    calc (nodeMarkThenFull d i).params
        = drainSerial (markDirty (nodeAfterFull d).params i) :=
          (emit_node_full_params
            { nodeAfterFull d with params := markDirty (nodeAfterFull d).params i }
            hallm).1
      _ = drainSerial (markDirty (drainSerial d.params) i) := by rw [e1]
  have key := drain_mark_drain_getD d.params i hi
  have hall2 : (nodeAfterFull d).change_mask_all &&& SPA_NODE_CHANGE_MASK_PARAMS ≠ 0 := by
    rw [e1m]
    exact hall
  have f1 : (portAfterFull allMask p).port_params = drainSerial p.port_params :=
    emit_port_full_params allMask p hpall
  have f2 : (portMarkThenFull allMask p j).port_params
      = drainSerial (markDirty (drainSerial p.port_params) j) := by
    calc (portMarkThenFull allMask p j).port_params
        = drainSerial (markDirty (portAfterFull allMask p).port_params j) :=
          emit_port_full_params allMask
            { portAfterFull allMask p with
                port_params := markDirty (portAfterFull allMask p).port_params j }
            hpall
      _ = drainSerial (markDirty (drainSerial p.port_params) j) := by rw [f1]
  have keyp := drain_mark_drain_getD p.port_params j hj
  refine ⟨?_, ?_, ?_, ?_, ?_, ?_⟩
  · rw [e2, key, e1]
    exact serialBit_xor_one _
  · rw [e2, key]
  · calc (nodeAfterFull (nodeAfterFull d)).params
        = drainSerial (nodeAfterFull d).params :=
          (emit_node_full_params (nodeAfterFull d) hall2).1
      _ = (nodeAfterFull d).params := by rw [e1, drain_drain, ← e1]
  · rw [f2, keyp, f1]
    exact serialBit_xor_one _
  · rw [f2, keyp]
  · calc (portAfterFull allMask (portAfterFull allMask p)).port_params
        = drainSerial (portAfterFull allMask p).port_params :=
          emit_port_full_params allMask (portAfterFull allMask p) hpall
      _ = (portAfterFull allMask p).port_params := by rw [f1, drain_drain, ← f1]

/-- Witness for serial_toggle_edge_triggered on the main-initialized
node and port tables (change_mask_all = 7, port all-mask = 13), marking
descriptor 0 of each. -/
theorem serial_toggle_edge_triggered_witness :
    ((initNode [initPort]).change_mask_all &&& SPA_NODE_CHANGE_MASK_PARAMS ≠ 0 ∧
      (0 : Nat) < (initNode [initPort]).params.length ∧
      PORT_CHANGE_MASK_ALL &&& SPA_PORT_CHANGE_MASK_PARAMS ≠ 0 ∧
      (0 : Nat) < initPort.port_params.length) ∧
    (serialBit ((nodeMarkThenFull (initNode [initPort]) 0).params.getD 0 default)
        = ! serialBit ((nodeAfterFull (initNode [initPort])).params.getD 0 default) ∧
      ((nodeMarkThenFull (initNode [initPort]) 0).params.getD 0 default).user = 0 ∧
      (nodeAfterFull (nodeAfterFull (initNode [initPort]))).params
        = (nodeAfterFull (initNode [initPort])).params ∧
      serialBit ((portMarkThenFull PORT_CHANGE_MASK_ALL initPort 0).port_params.getD 0 default)
        = ! serialBit
            ((portAfterFull PORT_CHANGE_MASK_ALL initPort).port_params.getD 0 default) ∧
      ((portMarkThenFull PORT_CHANGE_MASK_ALL initPort 0).port_params.getD 0 default).user
        = 0 ∧
      (portAfterFull PORT_CHANGE_MASK_ALL
            (portAfterFull PORT_CHANGE_MASK_ALL initPort)).port_params
        = (portAfterFull PORT_CHANGE_MASK_ALL initPort).port_params) :=
  ⟨⟨by decide, by decide, by decide, by decide⟩,
    serial_toggle_edge_triggered (initNode [initPort]) 0 PORT_CHANGE_MASK_ALL initPort 0
      (by decide) (by decide) (by decide) (by decide)⟩

/-- A node state whose change mask has the PARAMS facet marked (as the
commit path does before its partial emission). -/
def c9Node : NodeData := { initNode [initPort] with info_change_mask := 4 }

/-- C9 counterexample: a non-full emission does NOT restore the change
mask to the value it held before the call — with the mask holding the
marked facet 4 before the call, the mask afterwards is 0. -/
theorem emit_nonfull_does_not_restore_mask :
    ¬ ((emit_node_info c9Node false).1.info_change_mask = c9Node.info_change_mask) := by
  decide

/-- C9 amended: a full emission restores the change mask to its
pre-call value; a non-full emission clears the mask to zero (so the
transient bits marked before the call do not leak into the next read). -/
theorem emit_mask_full_restores_nonfull_clears (d : NodeData) :
    (emit_node_info d true).1.info_change_mask = d.info_change_mask ∧
    (emit_node_info d false).1.info_change_mask = 0 := by
  constructor <;> simp only [emit_node_info, if_true, Bool.false_eq_true, if_false] <;>
    split <;> rfl
